import Mathlib

set_option maxHeartbeats 1600000

/-
Verification of the web-audio-player engine (WebAudioPlayer class, plus the
loadAudioFromUrl / loadAudioFromFile buffer-acquisition helpers).

The player class is shallowly embedded as an explicit state record
`WebAudioPlayer`; each method becomes a function from (inputs ×) state to
state (or state × result).  Time values are modelled as rationals: the source
performs the currentTime arithmetic with an arbitrary-precision decimal
library (big.js), for which exact rational arithmetic is a faithful model.
The hardware clock reading (`ctx.currentTime`) is an external input and is
passed explicitly to the operations that read it.  The state-change callback
is modelled by an `events` log that records every emitted state, and the
single-use source node is modelled by an optional node identifier drawn from
a fresh-id counter, so that "a new node was created" is observable as a
change of identifier.
-/

/-- Player transport states, from the `TPlayerState` union type of the source:
stop (initial), running, paused, ended. -/
inductive TPlayerState where
  | stop
  | running
  | paused
  | ended
deriving DecidableEq, Repr

/-- Partial configuration object accepted by `setConfig`, from the
`IPlayerConfig` interface of the source.  Every field is optional; an `Option`
field models "present and of the expected type" (the source ignores absent or
mistyped fields, which the `Option` representation captures as `none`). -/
structure IPlayerConfig where
  loop : Option Bool
  startOffset : Option ℚ
  endOffset : Option ℚ
  loopStart : Option ℚ
  loopEnd : Option ℚ
  rateValue : Option ℚ
  gainValue : Option ℚ
deriving DecidableEq, Repr

/-- The all-absent partial configuration. -/
def emptyConfig : IPlayerConfig :=
  ⟨none, none, none, none, none, none, none⟩

/-- Outcome of a `play()` call: one of the three diagnostic (console.error)
early returns, the asynchronous resume request issued from the paused state,
or a fresh playback start. -/
inductive PlayResult where
  | errNoBuffer
  | errStartAfterLoopEnd
  | errLoopStartAfterLoopEnd
  | errStartAfterEndOffset
  | resumeRequested
  | started
deriving DecidableEq, Repr

/-- The mutable instance state of the `WebAudioPlayer` class.  Field names
follow the private fields of the source (without the underscore prefix).
`audioBuffer` stores just the buffer's duration (the only datum the engine
reads from it); `sourceNode` is the optional identifier of the live
`AudioBufferSourceNode`; `nextNodeId` is the fresh-identifier supply;
`gainNode` is the optional persistent gain node holding its current gain
value; `events` logs every state emitted through `_emitStateChange`. -/
structure WebAudioPlayer where
  ctxStartTime : ℚ
  lastCurrentTime : ℚ
  audioBuffer : Option ℚ
  duration : ℚ
  sourceNode : Option ℕ
  nextNodeId : ℕ
  state : TPlayerState
  gainNode : Option ℚ
  gainValue : ℚ
  loop : Bool
  startOffset : ℚ
  endOffset : ℚ
  loopStart : ℚ
  loopEnd : ℚ
  rateValue : ℚ
  events : List TPlayerState
deriving DecidableEq, Repr

namespace WebAudioPlayer

/-- The freshly constructed player: the field initializers of the class. -/
def init : WebAudioPlayer where
  ctxStartTime := 0
  lastCurrentTime := 0
  audioBuffer := none
  duration := 0
  sourceNode := none
  nextNodeId := 0
  state := TPlayerState.stop
  gainNode := none
  gainValue := 1
  loop := false
  startOffset := 0
  endOffset := 0
  loopStart := 0
  loopEnd := 0
  rateValue := 1
  events := []

/-- `_emitStateChange`: set the state and invoke the subscriber (modelled by
appending the new state to the event log). -/
def emitStateChange (s : TPlayerState) (p : WebAudioPlayer) : WebAudioPlayer :=
  { p with state := s, events := p.events ++ [s] }

/-- `_destroySourceNode`: stop, disconnect and release the live source node,
if any. -/
def destroySourceNode (p : WebAudioPlayer) : WebAudioPlayer :=
  match p.sourceNode with
  | some _ => { p with sourceNode := none }
  | none => p

/-- `stop()`: only when a source node is live, destroy it, reset the frozen
position to `startOffset` and emit `stop`; otherwise do nothing at all. -/
def stop (p : WebAudioPlayer) : WebAudioPlayer :=
  match p.sourceNode with
  | some _ =>
      let p1 := p.destroySourceNode
      let p2 := { p1 with lastCurrentTime := p1.startOffset }
      p2.emitStateChange TPlayerState.stop
  | none => p

/-- The parameter-validity check at the top of `play()`: in loop mode,
`startOffset > loopEnd` and then `loopStart > loopEnd` are rejected; in
non-loop mode `startOffset > endOffset` is rejected.  Returns the diagnostic
of the first failing check, `none` when the configuration is accepted. -/
def validateConfig (p : WebAudioPlayer) : Option PlayResult :=
  if p.loop then
    if p.startOffset > p.loopEnd then some PlayResult.errStartAfterLoopEnd
    else if p.loopStart > p.loopEnd then some PlayResult.errLoopStartAfterLoopEnd
    else none
  else
    if p.startOffset > p.endOffset then some PlayResult.errStartAfterEndOffset
    else none

/-- `play()`: missing-buffer check, validity check, resume-from-paused branch
(which only schedules `ctx.resume()` — the `running` emission happens in its
continuation, `resumeResolved` below), and otherwise the fresh-start branch:
destroy any stale node, create a new source node, lazily create the gain
node, record the clock anchor `ctxStartTime`, start the node and emit
`running`.  `clockNow` is the `ctx.currentTime` reading at the call. -/
def play (clockNow : ℚ) (p : WebAudioPlayer) : WebAudioPlayer × PlayResult :=
  match p.audioBuffer with
  | none => (p, PlayResult.errNoBuffer)
  | some _ =>
    match p.validateConfig with
    | some e => (p, e)
    | none =>
      if p.state = TPlayerState.paused then
        (p, PlayResult.resumeRequested)
      else
        let p1 := p.destroySourceNode
        let p2 := { p1 with sourceNode := some p1.nextNodeId,
                            nextNodeId := p1.nextNodeId + 1 }
        let p3 := match p2.gainNode with
          | none => { p2 with gainNode := some p2.gainValue }
          | some _ => p2
        let p4 := { p3 with ctxStartTime := clockNow }
        (p4.emitStateChange TPlayerState.running, PlayResult.started)

/-- The continuation of `this._ctx.resume().then(...)` in the paused branch
of `play()`: once the asynchronous clock resume resolves, emit `running`. -/
def resumeResolved (p : WebAudioPlayer) : WebAudioPlayer :=
  p.emitStateChange TPlayerState.running

/-- Truncation toward zero of a rational, as big.js division/remainder
truncates: the numerator divided by the (positive) denominator with
truncated (toward-zero) integer division `Int.tdiv`, so that for example
`ratTrunc (-3/10) = 0` and `ratTrunc (-7/2) = -3`. -/
def ratTrunc (q : ℚ) : ℤ := q.num.tdiv (q.den : ℤ)

/-- The remainder operation of big.js (`Big.mod`): `a - n * trunc(a / n)`,
the truncated-division remainder, whose sign follows the dividend — so
`bigMod (-3) 10 = -3`, not the floor-mod value 7. -/
def bigMod (a n : ℚ) : ℚ := a - n * (ratTrunc (a / n) : ℚ)

/-- The `currentTime` getter: while `running`, derive the position from the
clock (loop branch: shift the scaled elapsed time by the gap from the play
start to the loop region, wrap modulo the loop span — with 1 substituted for
a zero span, the `loopGap || 1` guard — and re-anchor at `loopStart`;
non-loop branch: scaled elapsed time plus `startOffset`); in any other state
return the frozen `lastCurrentTime`. -/
def currentTime (clockNow : ℚ) (p : WebAudioPlayer) : ℚ :=
  if p.state = TPlayerState.running then
    if p.loop then
      let startOffsetGap := p.loopStart - p.startOffset
      let loopGap := p.loopEnd - p.loopStart
      bigMod ((clockNow - p.ctxStartTime) * p.rateValue - startOffsetGap)
          (if loopGap = 0 then 1 else loopGap)
        + p.loopStart
    else
      (clockNow - p.ctxStartTime) * p.rateValue + p.startOffset
  else
    p.lastCurrentTime

/-- `pause()`: only from `running`; awaits `ctx.suspend()` and, once it
resolves (with the clock frozen at `clockNow`), freezes `currentTime` into
`lastCurrentTime` and emits `paused`. -/
def pause (clockNow : ℚ) (p : WebAudioPlayer) : WebAudioPlayer :=
  if p.state = TPlayerState.running then
    let p1 := { p with lastCurrentTime := p.currentTime clockNow }
    p1.emitStateChange TPlayerState.paused
  else p

/-- The `audioBuffer` setter: store the buffer (its duration `d`), cache the
duration, and reset the derived offsets to the whole-buffer range. -/
def setAudioBuffer (d : ℚ) (p : WebAudioPlayer) : WebAudioPlayer :=
  { p with audioBuffer := some d, duration := d,
           startOffset := 0, endOffset := d, loopStart := 0, loopEnd := d }

/-- `_onSourceNodeEnded`: the source node's `ended` event handler.  Only when
still `running` does it freeze `lastCurrentTime := endOffset`; it then emits
`ended` unconditionally. -/
def onSourceNodeEnded (p : WebAudioPlayer) : WebAudioPlayer :=
  let p1 := if p.state = TPlayerState.running
    then { p with lastCurrentTime := p.endOffset }
    else p
  p1.emitStateChange TPlayerState.ended

/-- `setConfig(v)`: apply each present field in source order (gain — also hot
onto the live gain node —, rate, loop, startOffset, endOffset, loopStart,
loopEnd), accumulating the `needRestart` flag exactly as the source does
(every field but gain sets it; endOffset sets it only when the — just
updated — loop flag is false); then, when a restart is needed, stop and, if
the state captured before stopping was `running`, play again. -/
def setConfig (clockNow : ℚ) (v : IPlayerConfig) (p : WebAudioPlayer) :
    WebAudioPlayer :=
  let needRestart := false
  let p := match v.gainValue with
    | some g =>
        let p1 := { p with gainValue := g }
        match p1.gainNode with
        | some _ => { p1 with gainNode := some g }
        | none => p1
    | none => p
  let r := match v.rateValue with
    | some x => ({ p with rateValue := x }, true)
    | none => (p, needRestart)
  let p := r.1
  let needRestart := r.2
  let r := match v.loop with
    | some b => ({ p with loop := b }, true)
    | none => (p, needRestart)
  let p := r.1
  let needRestart := r.2
  let r := match v.startOffset with
    | some x => ({ p with startOffset := x }, true)
    | none => (p, needRestart)
  let p := r.1
  let needRestart := r.2
  let r := match v.endOffset with
    | some x => ({ p with endOffset := x }, needRestart || !p.loop)
    | none => (p, needRestart)
  let p := r.1
  let needRestart := r.2
  let r := match v.loopStart with
    | some x => ({ p with loopStart := x }, true)
    | none => (p, needRestart)
  let p := r.1
  let needRestart := r.2
  let r := match v.loopEnd with
    | some x => ({ p with loopEnd := x }, true)
    | none => (p, needRestart)
  let p := r.1
  let needRestart := r.2
  if needRestart then
    let currentState := p.state
    let p1 := p.stop
    if currentState = TPlayerState.running then (p1.play clockNow).1 else p1
  else p

/-- `destroy()`: destroy the source node (the context close has no further
observable effect on the modelled state). -/
def destroy (p : WebAudioPlayer) : WebAudioPlayer :=
  p.destroySourceNode

end WebAudioPlayer

/-- The loop-mode position formula in the spec's words: with
`gapToLoop = loopStart - startOffset` and `loopSpan = loopEnd - loopStart`
(guarded to 1 when the region is degenerate, i.e. the span is zero),
`position = ((clockNow - clockAtStart) * rate - gapToLoop) mod loopSpan
+ loopStart`, with the decimal-library remainder. -/
def specLoopPosition (clockNow clockAtStart rate startOffset loopStart
    loopEnd : ℚ) : ℚ :=
  let gapToLoop := loopStart - startOffset
  let loopSpan := loopEnd - loopStart
  WebAudioPlayer.bigMod ((clockNow - clockAtStart) * rate - gapToLoop)
      (if loopSpan = 0 then 1 else loopSpan)
    + loopStart

/-! ### Settlement model of the buffer-acquisition helpers

`loadAudioFromUrl` and `loadAudioFromFile` wrap callback-driven loading in a
promise.  The embedding maps each possible terminal event of the underlying
load to the settlement (if any) the promise reaches, read off from which
callbacks the source registers: for the URL loader, `xhr.onerror` calls
`reject()` and `xhr.onload` calls `decodeAudioData` with only a success
callback (which resolves); for the file loader, `fileReader.onloadend` calls
`decodeAudioData` with only a success callback, and does nothing when the
result is not an ArrayBuffer.  `none` means the promise never settles. -/

/-- A promise settlement: resolved with a decoded buffer, or rejected. -/
inductive LoadSettlement where
  | resolved
  | rejected
deriving DecidableEq, Repr

/-- Terminal events of the XHR-based URL load: a transfer error
(`xhr.onerror`), or a completed transfer (`xhr.onload`) whose subsequent
decode either succeeds or fails. -/
inductive UrlLoadEvent where
  | transferError
  | loaded (decodeSucceeds : Bool)
deriving DecidableEq, Repr

/-- Terminal events of the FileReader-based load: `onloadend` delivered an
ArrayBuffer (whose decode succeeds or fails), or something else. -/
inductive FileLoadEvent where
  | loadedArrayBuffer (decodeSucceeds : Bool)
  | loadedNonBuffer
deriving DecidableEq, Repr

/-- How the promise returned by `loadAudioFromUrl` settles for each terminal
event of the load. -/
def loadAudioFromUrlResult : UrlLoadEvent → Option LoadSettlement
  | UrlLoadEvent.transferError => some LoadSettlement.rejected
  | UrlLoadEvent.loaded true => some LoadSettlement.resolved
  | UrlLoadEvent.loaded false => none

/-- How the promise returned by `loadAudioFromFile` settles for each terminal
event of the load. -/
def loadAudioFromFileResult : FileLoadEvent → Option LoadSettlement
  | FileLoadEvent.loadedArrayBuffer true => some LoadSettlement.resolved
  | FileLoadEvent.loadedArrayBuffer false => none
  | FileLoadEvent.loadedNonBuffer => none

/-! ### Concrete scenario players and single-field configurations -/

/-- A fresh player holding a 30-second buffer. -/
def buffered : WebAudioPlayer := WebAudioPlayer.init.setAudioBuffer 30

/-- The non-loop scenario configuration of the spec:
`startOffset=10, endOffset=20`. -/
def nonLoopCfg : IPlayerConfig :=
  { emptyConfig with startOffset := some 10, endOffset := some 20 }

/-- The non-loop scenario, playing from clock reading 0. -/
def runningExample : WebAudioPlayer := ((buffered.setConfig 0 nonLoopCfg).play 0).1

/-- The non-loop scenario paused at clock reading 5 (position 15). -/
def pausedExample : WebAudioPlayer := runningExample.pause 5

/-- The loop scenario configuration of the spec:
`loop=true, startOffset=10, loopStart=15, loopEnd=25`. -/
def loopCfg : IPlayerConfig :=
  { emptyConfig with loop := some true, startOffset := some 10,
                     loopStart := some 15, loopEnd := some 25 }

/-- The loop scenario, playing from clock reading 0. -/
def loopExample : WebAudioPlayer := ((buffered.setConfig 0 loopCfg).play 0).1

/-- The invalid configuration of the spec's error scenario:
`loop=true, startOffset=30, loopEnd=20`. -/
def invalidLoopCfg : IPlayerConfig :=
  { emptyConfig with loop := some true, startOffset := some 30,
                     loopEnd := some 20 }

/-- A stopped player carrying the invalid loop configuration. -/
def invalidExample : WebAudioPlayer := buffered.setConfig 0 invalidLoopCfg

/-- A never-played player whose `startOffset` was set to 10 by `setConfig`
(so its frozen position, still 0, differs from `startOffset`). -/
def stoppedOffsetExample : WebAudioPlayer :=
  WebAudioPlayer.init.setConfig 0 { emptyConfig with startOffset := some 10 }

/-- Partial configuration changing only `gainValue`. -/
def gainOnlyCfg (x : ℚ) : IPlayerConfig := { emptyConfig with gainValue := some x }

/-- Partial configuration changing only `rateValue`. -/
def rateOnlyCfg (x : ℚ) : IPlayerConfig := { emptyConfig with rateValue := some x }

/-- Partial configuration changing only `loop`. -/
def loopOnlyCfg (b : Bool) : IPlayerConfig := { emptyConfig with loop := some b }

/-- Partial configuration changing only `startOffset`. -/
def startOffsetOnlyCfg (x : ℚ) : IPlayerConfig :=
  { emptyConfig with startOffset := some x }

/-- Partial configuration changing only `endOffset`. -/
def endOffsetOnlyCfg (x : ℚ) : IPlayerConfig :=
  { emptyConfig with endOffset := some x }

/-- Partial configuration changing only `loopStart`. -/
def loopStartOnlyCfg (x : ℚ) : IPlayerConfig :=
  { emptyConfig with loopStart := some x }

/-- Partial configuration changing only `loopEnd`. -/
def loopEndOnlyCfg (x : ℚ) : IPlayerConfig :=
  { emptyConfig with loopEnd := some x }

/-- The pure field-update part of `setConfig`: every present field applied in
source order, gain also written through to the live gain node, and no
restart logic. -/
def applyCfg (v : IPlayerConfig) (p : WebAudioPlayer) : WebAudioPlayer :=
  let p := match v.gainValue with
    | some g =>
        let p1 := { p with gainValue := g }
        match p1.gainNode with
        | some _ => { p1 with gainNode := some g }
        | none => p1
    | none => p
  let p := match v.rateValue with
    | some x => { p with rateValue := x }
    | none => p
  let p := match v.loop with
    | some b => { p with loop := b }
    | none => p
  let p := match v.startOffset with
    | some x => { p with startOffset := x }
    | none => p
  let p := match v.endOffset with
    | some x => { p with endOffset := x }
    | none => p
  let p := match v.loopStart with
    | some x => { p with loopStart := x }
    | none => p
  match v.loopEnd with
  | some x => { p with loopEnd := x }
  | none => p

/-- The restart classification accumulated by `setConfig`'s `needRestart`
flag: every present field except gain requires a restart; endOffset requires
one only when the loop flag (as updated by this same call) is false. -/
def cfgNeedRestart (v : IPlayerConfig) (loopAfter : Bool) : Bool :=
  v.rateValue.isSome || v.loop.isSome || v.startOffset.isSome ||
    (v.endOffset.isSome && !loopAfter) || v.loopStart.isSome || v.loopEnd.isSome

/-- `v` changes exactly one restart-required field of `p`: rate, loop,
startOffset, loopStart, loopEnd — or endOffset while the player is in
non-loop mode. -/
def restartOnlyCfg (v : IPlayerConfig) (p : WebAudioPlayer) : Prop :=
  (∃ x, v = rateOnlyCfg x) ∨ (∃ b, v = loopOnlyCfg b) ∨
  (∃ x, v = startOffsetOnlyCfg x) ∨ (∃ x, v = loopStartOnlyCfg x) ∨
  (∃ x, v = loopEndOnlyCfg x) ∨ (∃ x, v = endOffsetOnlyCfg x ∧ p.loop = false)

/-! ### Helper lemmas -/

/-- `setConfig` is the field update followed, exactly when the accumulated
restart flag is set, by `stop` and — only from `running` — `play`. -/
theorem setConfig_decomposition (t : ℚ) (v : IPlayerConfig) (p : WebAudioPlayer) :
    p.setConfig t v =
      if cfgNeedRestart v (applyCfg v p).loop then
        if p.state = TPlayerState.running then ((applyCfg v p).stop.play t).1
        else (applyCfg v p).stop
      else applyCfg v p := by
  rcases v with ⟨l, so, eo, ls, le, rv, gv⟩
  rcases p with ⟨cst, lct, ab, dur, sn, nid, st, gn, gval, lp, so0, eo0, ls0, le0, rv0, ev⟩
  cases l <;> cases so <;> cases eo <;> cases ls <;> cases le <;> cases rv <;>
    cases gv <;> cases gn <;>
    simp [WebAudioPlayer.setConfig, applyCfg, cfgNeedRestart]

/-- Closed form of the field update: each field is the supplied value when
present, the previous value otherwise; the gain node is overwritten only when
a gain was supplied and a node exists. -/
theorem applyCfg_eq (v : IPlayerConfig) (p : WebAudioPlayer) :
    applyCfg v p =
      { p with
        gainValue := v.gainValue.getD p.gainValue,
        gainNode := match v.gainValue, p.gainNode with
          | some g, some _ => some g
          | _, _ => p.gainNode,
        rateValue := v.rateValue.getD p.rateValue,
        loop := v.loop.getD p.loop,
        startOffset := v.startOffset.getD p.startOffset,
        endOffset := v.endOffset.getD p.endOffset,
        loopStart := v.loopStart.getD p.loopStart,
        loopEnd := v.loopEnd.getD p.loopEnd } := by
  rcases v with ⟨l, so, eo, ls, le, rv, gv⟩
  rcases p with ⟨cst, lct, ab, dur, sn, nid, st, gn, gval, lp, so0, eo0, ls0, le0, rv0, ev⟩
  cases l <;> cases so <;> cases eo <;> cases ls <;> cases le <;> cases rv <;>
    cases gv <;> cases gn <;>
    simp [applyCfg]

/-- Closed form of `stop` when a source node is live. -/
theorem stop_eq_of_node (p : WebAudioPlayer) (k : ℕ) (h : p.sourceNode = some k) :
    p.stop = { p with sourceNode := none, lastCurrentTime := p.startOffset,
                      state := TPlayerState.stop,
                      events := p.events ++ [TPlayerState.stop] } := by
  simp [WebAudioPlayer.stop, h, WebAudioPlayer.destroySourceNode,
    WebAudioPlayer.emitStateChange]

/-- `stop` does nothing when no source node is live. -/
theorem stop_of_no_node (p : WebAudioPlayer) (h : p.sourceNode = none) :
    p.stop = p := by
  simp [WebAudioPlayer.stop, h]

/-- The validity check only reads the five range/loop fields. -/
theorem validateConfig_congr (p q : WebAudioPlayer) (hl : p.loop = q.loop)
    (h1 : p.startOffset = q.startOffset) (h2 : p.endOffset = q.endOffset)
    (h3 : p.loopStart = q.loopStart) (h4 : p.loopEnd = q.loopEnd) :
    p.validateConfig = q.validateConfig := by
  simp [WebAudioPlayer.validateConfig, hl, h1, h2, h3, h4]

/-- Closed form of the fresh-start branch of `play` (buffer present, valid
configuration, not paused). -/
theorem play_eq_fresh (t d : ℚ) (p : WebAudioPlayer) (hb : p.audioBuffer = some d)
    (hv : p.validateConfig = none) (hs : p.state ≠ TPlayerState.paused) :
    p.play t =
      ({ p with sourceNode := some p.nextNodeId,
                nextNodeId := p.nextNodeId + 1,
                gainNode := some (p.gainNode.getD p.gainValue),
                ctxStartTime := t,
                state := TPlayerState.running,
                events := p.events ++ [TPlayerState.running] },
       PlayResult.started) := by
  cases hn : p.sourceNode <;> cases hg : p.gainNode <;>
    simp [WebAudioPlayer.play, hb, hv, hs, hn, hg,
      WebAudioPlayer.destroySourceNode, WebAudioPlayer.emitStateChange]

/-- Closed form of the `stop(); play()` restart cycle issued by `setConfig`. -/
theorem stop_play_spec (t d : ℚ) (p : WebAudioPlayer) (k : ℕ)
    (hk : p.sourceNode = some k) (hb : p.audioBuffer = some d)
    (hv : p.validateConfig = none) :
    (p.stop.play t).1 =
      { p with sourceNode := some p.nextNodeId,
               nextNodeId := p.nextNodeId + 1,
               gainNode := some (p.gainNode.getD p.gainValue),
               ctxStartTime := t,
               lastCurrentTime := p.startOffset,
               state := TPlayerState.running,
               events := p.events ++ [TPlayerState.stop, TPlayerState.running] } := by
  rw [stop_eq_of_node p k hk]
  have hb1 : ({ p with sourceNode := none,
                       lastCurrentTime := p.startOffset,
                       state := TPlayerState.stop,
                       events := p.events ++ [TPlayerState.stop] }
      : WebAudioPlayer).audioBuffer = some d := hb
  have hv1 : ({ p with sourceNode := none,
                       lastCurrentTime := p.startOffset,
                       state := TPlayerState.stop,
                       events := p.events ++ [TPlayerState.stop] }
      : WebAudioPlayer).validateConfig = none :=
    (validateConfig_congr _ p rfl rfl rfl rfl rfl).trans hv
  have hs1 : ({ p with sourceNode := none,
                       lastCurrentTime := p.startOffset,
                       state := TPlayerState.stop,
                       events := p.events ++ [TPlayerState.stop] }
      : WebAudioPlayer).state ≠ TPlayerState.paused := by simp
  rw [play_eq_fresh t d _ hb1 hv1 hs1]
  simp

/-! ### Claim theorems -/

/-- Claim C1: while the engine is running in loop mode, the `currentTime`
accessor returns `((clockNow - clockAtStart) * rate - gapToLoop) mod loopSpan
+ loopStart` with `gapToLoop = loopStart - startOffset` and
`loopSpan = loopEnd - loopStart` guarded to 1 when the region is degenerate;
in the spec's loop scenario (`startOffset=10, loopStart=15, loopEnd=25,
rate=1`), at 5 elapsed seconds `currentTime = 15` and at 20 elapsed seconds
`currentTime = 20`.  The final conjunct checks a pre-loop instant, where the
remainder's dividend is negative: at 2 elapsed seconds the truncated
(dividend-signed) remainder of big.js gives `currentTime = 12` — the
position still approaching the loop region, as "play once from startOffset,
then loop" requires — where a floor-mod convention would give 22. -/
theorem currentTime_loop_formula :
    (∀ (p : WebAudioPlayer) (t : ℚ),
        p.state = TPlayerState.running → p.loop = true →
        p.currentTime t =
          specLoopPosition t p.ctxStartTime p.rateValue p.startOffset
            p.loopStart p.loopEnd)
    ∧ loopExample.currentTime 5 = 15 ∧ loopExample.currentTime 20 = 20
    ∧ loopExample.currentTime 2 = 12 := by
  refine ⟨?_, ?_, ?_, ?_⟩
  · intro p t hrun hloop
    simp [WebAudioPlayer.currentTime, specLoopPosition, hrun, hloop]
  · with_unfolding_all rfl
  · with_unfolding_all rfl
  · with_unfolding_all rfl

/-- Witness for C1: the loop-scenario player at clock 5. -/
theorem currentTime_loop_formula_witness :
    loopExample.currentTime 5 =
      specLoopPosition 5 loopExample.ctxStartTime loopExample.rateValue
        loopExample.startOffset loopExample.loopStart loopExample.loopEnd :=
  currentTime_loop_formula.1 loopExample 5 (by with_unfolding_all rfl)
    (by with_unfolding_all rfl)

/-- Claim C2: a gain-only change is hot-applied to the live gain node and
never stops or restarts the playback graph; a change to rate, loop,
startOffset, loopStart or loopEnd — or to endOffset while loop is false — is
restart-required and, while running (with a live node, a buffer, and a
configuration still valid after the change), forces a stop/recreate cycle
with a fresh node identifier; endOffset changed while loop is true is stored
but triggers no restart. -/
theorem setConfig_classification :
    (∀ (t g : ℚ) (p : WebAudioPlayer),
        (p.setConfig t (gainOnlyCfg g)).sourceNode = p.sourceNode ∧
        (p.setConfig t (gainOnlyCfg g)).nextNodeId = p.nextNodeId ∧
        (p.setConfig t (gainOnlyCfg g)).state = p.state ∧
        (p.setConfig t (gainOnlyCfg g)).events = p.events ∧
        (p.setConfig t (gainOnlyCfg g)).gainValue = g ∧
        (∀ w, p.gainNode = some w →
            (p.setConfig t (gainOnlyCfg g)).gainNode = some g) ∧
        (p.gainNode = none → (p.setConfig t (gainOnlyCfg g)).gainNode = none))
    ∧ (∀ (t d : ℚ) (v : IPlayerConfig) (p : WebAudioPlayer) (k : ℕ),
        restartOnlyCfg v p → p.state = TPlayerState.running →
        p.sourceNode = some k → k ≠ p.nextNodeId → p.audioBuffer = some d →
        (applyCfg v p).validateConfig = none →
        (p.setConfig t v).sourceNode = some p.nextNodeId ∧
        (p.setConfig t v).sourceNode ≠ p.sourceNode ∧
        (p.setConfig t v).nextNodeId = p.nextNodeId + 1 ∧
        (p.setConfig t v).state = TPlayerState.running ∧
        (p.setConfig t v).events
          = p.events ++ [TPlayerState.stop, TPlayerState.running])
    ∧ (∀ (t x : ℚ) (p : WebAudioPlayer), p.loop = true →
        p.setConfig t (endOffsetOnlyCfg x) = { p with endOffset := x }) := by
  refine ⟨?_, ?_, ?_⟩
  · intro t g p
    have h0 : cfgNeedRestart (gainOnlyCfg g)
        (applyCfg (gainOnlyCfg g) p).loop = false := by
      simp [cfgNeedRestart, gainOnlyCfg, emptyConfig]
    have hsc : p.setConfig t (gainOnlyCfg g) = applyCfg (gainOnlyCfg g) p := by
      rw [setConfig_decomposition, h0]; simp
    rw [hsc, applyCfg_eq]
    refine ⟨rfl, rfl, rfl, rfl, by simp [gainOnlyCfg, emptyConfig], ?_, ?_⟩
    · intro w hw; simp [gainOnlyCfg, emptyConfig, hw]
    · intro hw; simp [gainOnlyCfg, emptyConfig, hw]
  · intro t d v p k hr hrun hk hknid hb hv
    have hneed : cfgNeedRestart v (applyCfg v p).loop = true := by
      rcases hr with ⟨x, rfl⟩ | ⟨b, rfl⟩ | ⟨x, rfl⟩ | ⟨x, rfl⟩ | ⟨x, rfl⟩ |
        ⟨x, rfl, hlf⟩ <;>
        simp [cfgNeedRestart, rateOnlyCfg, loopOnlyCfg, startOffsetOnlyCfg,
          loopStartOnlyCfg, loopEndOnlyCfg, endOffsetOnlyCfg, emptyConfig,
          applyCfg_eq, *]
    have hsc : p.setConfig t v = ((applyCfg v p).stop.play t).1 := by
      rw [setConfig_decomposition, hneed]; simp [hrun]
    have hsn : (applyCfg v p).sourceNode = some k := by
      rw [applyCfg_eq]; exact hk
    have hb1 : (applyCfg v p).audioBuffer = some d := by
      rw [applyCfg_eq]; exact hb
    have key := stop_play_spec t d (applyCfg v p) k hsn hb1 hv
    rw [hsc, key]
    have e1 : (applyCfg v p).nextNodeId = p.nextNodeId := by rw [applyCfg_eq]
    have e2 : (applyCfg v p).events = p.events := by rw [applyCfg_eq]
    refine ⟨by simp [e1], ?_, by simp [e1], by simp, by simp [e2]⟩
    simp [e1, hk]
    exact fun hc => hknid hc.symm
  · intro t x p hl
    have h0 : cfgNeedRestart (endOffsetOnlyCfg x)
        (applyCfg (endOffsetOnlyCfg x) p).loop = false := by
      simp [cfgNeedRestart, endOffsetOnlyCfg, emptyConfig, applyCfg_eq, hl]
    rw [setConfig_decomposition, h0]
    simp [applyCfg_eq, endOffsetOnlyCfg, emptyConfig]

/-- Witness for C2: gain-only change on the running non-loop scenario player
keeps the node and hot-applies the gain; a rate-only change replaces the
node; an endOffset change on the looping player is stored without restart. -/
theorem setConfig_classification_witness :
    (runningExample.setConfig 3 (gainOnlyCfg 2)).sourceNode
        = runningExample.sourceNode ∧
    (runningExample.setConfig 3 (gainOnlyCfg 2)).gainNode = some 2 ∧
    (runningExample.setConfig 5 (rateOnlyCfg 2)).sourceNode
        ≠ runningExample.sourceNode ∧
    loopExample.setConfig 1 (endOffsetOnlyCfg 22)
        = { loopExample with endOffset := 22 } :=
  ⟨(setConfig_classification.1 3 2 runningExample).1,
   (setConfig_classification.1 3 2 runningExample).2.2.2.2.2.1 1
     (by with_unfolding_all rfl),
   (setConfig_classification.2.1 5 30 (rateOnlyCfg 2) runningExample 0
     (Or.inl ⟨2, rfl⟩) (by with_unfolding_all rfl) (by with_unfolding_all rfl)
     (by decide) (by with_unfolding_all rfl) (by with_unfolding_all rfl)).2.1,
   setConfig_classification.2.2 1 22 loopExample (by with_unfolding_all rfl)⟩

/-- Claim C3 (amended): on a restart-required `setConfig`, the engine always
performs `stop()` — which, whenever a playback node is live (also in the
paused and ended states), tears the graph down, resets the frozen position to
`startOffset` and transitions to `stopped` — and performs the subsequent
`play()` exactly when the state was `running` at the call; the state, frozen
position and graph are left undisturbed only when no playback node is live. -/
theorem setConfig_restart_transitions (t : ℚ) (v : IPlayerConfig)
    (p : WebAudioPlayer) (h : cfgNeedRestart v (applyCfg v p).loop = true) :
    (p.state = TPlayerState.running →
        p.setConfig t v = ((applyCfg v p).stop.play t).1) ∧
    (p.state ≠ TPlayerState.running →
        p.setConfig t v = (applyCfg v p).stop) ∧
    (p.state ≠ TPlayerState.running → p.sourceNode = none →
        p.setConfig t v = applyCfg v p) := by
  refine ⟨?_, ?_, ?_⟩
  · intro hrun
    rw [setConfig_decomposition]
    simp [h, hrun]
  · intro hrun
    rw [setConfig_decomposition]
    simp [h, hrun]
  · intro hrun hn
    rw [setConfig_decomposition]
    have hn1 : (applyCfg v p).sourceNode = none := by
      rw [applyCfg_eq]; exact hn
    simp [h, hrun, stop_of_no_node _ hn1]

/-- Witness for C3: a rate change on the paused scenario player is recorded
through a bare `stop()` with no `play()`. -/
theorem setConfig_restart_transitions_witness :
    pausedExample.setConfig 6 (rateOnlyCfg 2)
      = (applyCfg (rateOnlyCfg 2) pausedExample).stop :=
  (setConfig_restart_transitions 6 (rateOnlyCfg 2) pausedExample
      (by with_unfolding_all rfl)).2.1 (by with_unfolding_all decide)

/-- Counterexample for C3 as frozen: a restart-required `setConfig` in the
paused state does not leave the transport state, the frozen position and the
live graph undisturbed — it destroys the node, resets the frozen position to
`startOffset` and moves the state to `stop`. -/
theorem setConfig_paused_counterexample :
    pausedExample.state = TPlayerState.paused ∧
    (pausedExample.setConfig 6 (rateOnlyCfg 2)).state ≠ pausedExample.state ∧
    (pausedExample.setConfig 6 (rateOnlyCfg 2)).lastCurrentTime
        ≠ pausedExample.lastCurrentTime ∧
    (pausedExample.setConfig 6 (rateOnlyCfg 2)).sourceNode
        ≠ pausedExample.sourceNode ∧
    (pausedExample.setConfig 6 (rateOnlyCfg 2)).events ≠ pausedExample.events := by
  refine ⟨?_, ?_, ?_, ?_, ?_⟩ <;> with_unfolding_all decide

/-- Claim C4 (amended): for every prior transport state in which a playback
node is live, after `stop()` the `currentTime` accessor returns the current
`startOffset` — the frozen position is set to `startOffset`, not to wherever
playback had reached — and the state transitions to `stopped`.  (Without a
live node `stop()` is a complete no-op and `currentTime` keeps its previous
frozen value.) -/
theorem stop_resets_to_startOffset (p : WebAudioPlayer) (t : ℚ) (k : ℕ)
    (h : p.sourceNode = some k) :
    p.stop.currentTime t = p.stop.startOffset ∧
    p.stop.startOffset = p.startOffset ∧
    p.stop.lastCurrentTime = p.startOffset ∧
    p.stop.state = TPlayerState.stop := by
  simp [WebAudioPlayer.stop, h, WebAudioPlayer.destroySourceNode,
    WebAudioPlayer.emitStateChange, WebAudioPlayer.currentTime]

/-- Witness for C4: stopping the paused scenario player (frozen at 15)
resets `currentTime` to `startOffset = 10`. -/
theorem stop_resets_to_startOffset_witness :
    pausedExample.stop.currentTime 9 = pausedExample.stop.startOffset ∧
    pausedExample.stop.lastCurrentTime = pausedExample.startOffset :=
  ⟨(stop_resets_to_startOffset pausedExample 9 0 (by with_unfolding_all rfl)).1,
   (stop_resets_to_startOffset pausedExample 9 0
       (by with_unfolding_all rfl)).2.2.1⟩

/-- Counterexample for C4 as frozen: from a stopped state with no live node
(here a never-played player whose `startOffset` was set to 10), `stop()` is a
no-op and `currentTime` stays at the old frozen position 0, not the current
`startOffset` 10. -/
theorem stop_reset_counterexample :
    stoppedOffsetExample.stop.startOffset = 10 ∧
    stoppedOffsetExample.stop.currentTime 0 = 0 ∧
    ¬ stoppedOffsetExample.stop.currentTime 0
        = stoppedOffsetExample.stop.startOffset := by
  refine ⟨?_, ?_, ?_⟩ <;> with_unfolding_all decide

/-- Claim C5: while running in non-loop mode, `currentTime` returns
`(clockNow - clockAtStart) * rate + startOffset`; whenever the state is not
running, it returns the last frozen position verbatim, not anything derived
from the clock. -/
theorem currentTime_nonloop_and_frozen (p : WebAudioPlayer) (t : ℚ) :
    (p.state = TPlayerState.running → p.loop = false →
        p.currentTime t = (t - p.ctxStartTime) * p.rateValue + p.startOffset)
    ∧ (p.state ≠ TPlayerState.running → p.currentTime t = p.lastCurrentTime) := by
  constructor
  · intro hrun hloop
    simp [WebAudioPlayer.currentTime, hrun, hloop]
  · intro hnot
    simp [WebAudioPlayer.currentTime, hnot]

/-- Witness for C5: the running non-loop scenario player at clock 5, and the
paused scenario player at clock 7. -/
theorem currentTime_nonloop_and_frozen_witness :
    (runningExample.currentTime 5 =
        (5 - runningExample.ctxStartTime) * runningExample.rateValue
          + runningExample.startOffset)
    ∧ pausedExample.currentTime 7 = pausedExample.lastCurrentTime :=
  ⟨(currentTime_nonloop_and_frozen runningExample 5).1
      (by with_unfolding_all rfl) (by with_unfolding_all rfl),
   (currentTime_nonloop_and_frozen pausedExample 7).2
      (by with_unfolding_all decide)⟩

/-- Claim C6 (amended): the completion handler freezes the frozen position to
exactly `endOffset` only when the state is still `running` at fire time, and
leaves the frozen position untouched otherwise; but it transitions the state
to `ended` (emitting the notification) unconditionally, also when the state
is no longer `running`. -/
theorem sourceNodeEnded_effect (p : WebAudioPlayer) :
    p.onSourceNodeEnded.state = TPlayerState.ended ∧
    p.onSourceNodeEnded.events = p.events ++ [TPlayerState.ended] ∧
    (p.state = TPlayerState.running →
        p.onSourceNodeEnded.lastCurrentTime = p.endOffset) ∧
    (p.state ≠ TPlayerState.running →
        p.onSourceNodeEnded.lastCurrentTime = p.lastCurrentTime) := by
  by_cases h : p.state = TPlayerState.running <;>
    simp [WebAudioPlayer.onSourceNodeEnded, WebAudioPlayer.emitStateChange, h]

/-- Witness for C6: firing the handler on the running scenario player
freezes `endOffset = 20`; firing it on the paused player keeps the frozen
position. -/
theorem sourceNodeEnded_effect_witness :
    runningExample.onSourceNodeEnded.lastCurrentTime
        = runningExample.endOffset ∧
    pausedExample.onSourceNodeEnded.lastCurrentTime
        = pausedExample.lastCurrentTime :=
  ⟨(sourceNodeEnded_effect runningExample).2.2.1 (by with_unfolding_all rfl),
   (sourceNodeEnded_effect pausedExample).2.2.2 (by with_unfolding_all decide)⟩

/-- Counterexample for C6 as frozen: when the notification fires while the
state is not `running` (here: paused), the handler is not without effect —
it still changes the state (to `ended`) and emits a notification. -/
theorem sourceNodeEnded_counterexample :
    pausedExample.state ≠ TPlayerState.running ∧
    pausedExample.onSourceNodeEnded.state ≠ pausedExample.state ∧
    pausedExample.onSourceNodeEnded.events ≠ pausedExample.events := by
  refine ⟨?_, ?_, ?_⟩ <;> with_unfolding_all decide

/-- Claim C7: `play()` with no buffer reports the missing-source diagnostic
and is a no-op; `play()` with a configuration violating the ordering
invariants reports the corresponding validation diagnostic and is a no-op;
in particular the configuration `loop=true, startOffset=30, loopEnd=20`
played from `stopped` leaves the state at `stopped`. -/
theorem play_error_noop :
    (∀ (t : ℚ) (p : WebAudioPlayer), p.audioBuffer = none →
        p.play t = (p, PlayResult.errNoBuffer))
    ∧ (∀ (t d : ℚ) (p : WebAudioPlayer), p.audioBuffer = some d →
        p.loop = true → p.loopEnd < p.startOffset →
        p.play t = (p, PlayResult.errStartAfterLoopEnd))
    ∧ (∀ (t d : ℚ) (p : WebAudioPlayer), p.audioBuffer = some d →
        p.loop = true → p.startOffset ≤ p.loopEnd → p.loopEnd < p.loopStart →
        p.play t = (p, PlayResult.errLoopStartAfterLoopEnd))
    ∧ (∀ (t d : ℚ) (p : WebAudioPlayer), p.audioBuffer = some d →
        p.loop = false → p.endOffset < p.startOffset →
        p.play t = (p, PlayResult.errStartAfterEndOffset))
    ∧ invalidExample.state = TPlayerState.stop
    ∧ invalidExample.play 0 = (invalidExample, PlayResult.errStartAfterLoopEnd) := by
  refine ⟨?_, ?_, ?_, ?_, ?_, ?_⟩
  · intro t p h
    simp [WebAudioPlayer.play, h]
  · intro t d p hb hl hgt
    simp [WebAudioPlayer.play, hb, WebAudioPlayer.validateConfig, hl, hgt]
  · intro t d p hb hl hle hgt
    simp [WebAudioPlayer.play, hb, WebAudioPlayer.validateConfig, hl, hgt,
      not_lt.mpr hle]
  · intro t d p hb hl hgt
    simp [WebAudioPlayer.play, hb, WebAudioPlayer.validateConfig, hl, hgt]
  · with_unfolding_all rfl
  · with_unfolding_all rfl

/-- Witness for C7: a fresh player with no buffer, and the invalid loop
configuration of the spec's scenario. -/
theorem play_error_noop_witness :
    WebAudioPlayer.init.play 3 = (WebAudioPlayer.init, PlayResult.errNoBuffer) ∧
    invalidExample.play 1 = (invalidExample, PlayResult.errStartAfterLoopEnd) :=
  ⟨play_error_noop.1 3 WebAudioPlayer.init rfl,
   play_error_noop.2.1 1 30 invalidExample (by with_unfolding_all rfl)
     (by with_unfolding_all rfl) (by with_unfolding_all decide)⟩

/-- Claim C8: `play()` from `paused` (buffer set, valid configuration) only
requests the asynchronous clock resume, leaving the whole state — node,
anchor, frozen position — untouched; the `running` transition and its
notification are emitted in the resume continuation, after the asynchronous
operation resolves, never optimistically. -/
theorem play_resume_from_paused (t d : ℚ) (p : WebAudioPlayer)
    (hp : p.state = TPlayerState.paused) (hb : p.audioBuffer = some d)
    (hv : p.validateConfig = none) :
    p.play t = (p, PlayResult.resumeRequested) ∧
    p.resumeResolved.state = TPlayerState.running ∧
    p.resumeResolved.events = p.events ++ [TPlayerState.running] ∧
    p.resumeResolved.sourceNode = p.sourceNode ∧
    p.resumeResolved.nextNodeId = p.nextNodeId ∧
    p.resumeResolved.lastCurrentTime = p.lastCurrentTime ∧
    p.resumeResolved.ctxStartTime = p.ctxStartTime := by
  simp [WebAudioPlayer.play, hb, hv, hp, WebAudioPlayer.resumeResolved,
    WebAudioPlayer.emitStateChange]

/-- Witness for C8: resuming the paused scenario player. -/
theorem play_resume_from_paused_witness :
    pausedExample.play 9 = (pausedExample, PlayResult.resumeRequested) ∧
    pausedExample.resumeResolved.state = TPlayerState.running ∧
    pausedExample.resumeResolved.sourceNode = pausedExample.sourceNode :=
  ⟨(play_resume_from_paused 9 30 pausedExample (by with_unfolding_all rfl)
      (by with_unfolding_all rfl) (by with_unfolding_all rfl)).1,
   (play_resume_from_paused 9 30 pausedExample (by with_unfolding_all rfl)
      (by with_unfolding_all rfl) (by with_unfolding_all rfl)).2.1,
   (play_resume_from_paused 9 30 pausedExample (by with_unfolding_all rfl)
      (by with_unfolding_all rfl) (by with_unfolding_all rfl)).2.2.2.1⟩

/-- Claim C9: the code at the failing input — both acquisition functions
leave their promise unsettled (neither resolved nor rejected) when decoding
fails, because only the success callback of `decodeAudioData` is registered;
the URL loader rejects only on transfer error. -/
theorem decode_failure_never_settles :
    loadAudioFromUrlResult (UrlLoadEvent.loaded false) = none ∧
    loadAudioFromFileResult (FileLoadEvent.loadedArrayBuffer false) = none ∧
    loadAudioFromUrlResult UrlLoadEvent.transferError
      = some LoadSettlement.rejected :=
  ⟨rfl, rfl, rfl⟩

/-- Claim C10: `stop()` with no live playback node is a complete no-op: the
entire state — transport state, frozen position, configuration and the
notification log — is unchanged, so in particular `currentTime` is not reset
to `startOffset`. -/
theorem stop_noop_without_node (p : WebAudioPlayer)
    (h : p.sourceNode = none) : p.stop = p := by
  simp [WebAudioPlayer.stop, h]

/-- Witness for C10: stopping the fresh player. -/
theorem stop_noop_without_node_witness :
    WebAudioPlayer.init.stop = WebAudioPlayer.init :=
  stop_noop_without_node WebAudioPlayer.init rfl
